import Mathlib

/-!
Shallow embedding of `src/robot_ui/src/utils/useDetector.ts` (the
`useFaceLandmarkDetector` hook): calibration sampling, calibration
finalization, prediction blend-factor computation, smile-degree
aggregation, and the frame-scheduler loop steps, together with theorems
about the spec's claims on them.

JavaScript numbers are modelled as exact rationals extended with the
IEEE-754 special values Infinity, -Infinity and NaN, so that the
division-by-zero behaviour of the source (`x / 0` yields a non-finite
value rather than throwing) is represented faithfully.
-/

set_option linter.unusedVariables false

/-- A JavaScript number: a finite value (idealized as an exact rational),
positive or negative Infinity, or NaN. -/
inductive JSNum where
  | num (q : ℚ)
  | inf
  | negInf
  | nan
deriving DecidableEq, Repr

namespace JSNum

/-- JavaScript `+` on numbers: finite addition is exact; Infinity
absorbs finite values; opposite infinities and NaN give NaN. -/
def jsAdd : JSNum → JSNum → JSNum
  | num a, num b => num (a + b)
  | num _, inf => inf
  | inf, num _ => inf
  | num _, negInf => negInf
  | negInf, num _ => negInf
  | inf, inf => inf
  | negInf, negInf => negInf
  | inf, negInf => nan
  | negInf, inf => nan
  | nan, _ => nan
  | _, nan => nan

/-- JavaScript unary minus. -/
def jsNeg : JSNum → JSNum
  | num a => num (-a)
  | inf => negInf
  | negInf => inf
  | nan => nan

/-- JavaScript `-` on numbers, as addition of the negation. -/
def jsSub (a b : JSNum) : JSNum := jsAdd a (jsNeg b)

/-- JavaScript `/` on numbers: finite division is exact when the
denominator is nonzero; a nonzero value divided by zero gives a signed
Infinity; `0 / 0` gives NaN; a finite value divided by an Infinity gives
zero; NaN propagates. Division never throws. -/
def jsDiv : JSNum → JSNum → JSNum
  | num a, num b =>
      if b = 0 then (if a > 0 then inf else if a < 0 then negInf else nan)
      else num (a / b)
  | num _, inf => num 0
  | num _, negInf => num 0
  | inf, num b => if b ≥ 0 then inf else negInf
  | negInf, num b => if b ≥ 0 then negInf else inf
  | inf, inf => nan
  | inf, negInf => nan
  | negInf, inf => nan
  | negInf, negInf => nan
  | nan, _ => nan
  | _, nan => nan

/-- JavaScript `Math.max` of two numbers: NaN if either argument is NaN,
otherwise the larger value, with the usual ordering on infinities. -/
def jsMax : JSNum → JSNum → JSNum
  | nan, _ => nan
  | _, nan => nan
  | inf, _ => inf
  | _, inf => inf
  | negInf, b => b
  | a, negInf => a
  | num a, num b => num (max a b)

/-- JavaScript `Math.min` of two numbers: NaN if either argument is NaN,
otherwise the smaller value, with the usual ordering on infinities. -/
def jsMin : JSNum → JSNum → JSNum
  | nan, _ => nan
  | _, nan => nan
  | negInf, _ => negInf
  | _, negInf => negInf
  | inf, b => b
  | a, inf => a
  | num a, num b => num (min a b)

/-- `true` exactly on finite values lying in the closed unit interval. -/
def inUnit : JSNum → Bool
  | num q => decide (0 ≤ q ∧ q ≤ 1)
  | _ => false

end JSNum

/-- Modelled from the spec: the CalibrationStatus enum imported from
`@/types/CalibrationStatus`, whose source file is not in the repository
snapshot; the spec lists the four states NOT_READY, READY, DOING, DONE. -/
inductive CalibrationStatus where
  | NOT_READY
  | READY
  | DOING
  | DONE
deriving DecidableEq, Repr

/-- Modelled from the spec: the CalibrationMode enum imported from
`@/types/CalibrationMode`, whose source file is not in the repository
snapshot; the spec describes the two calibration passes, neutral and
smiling, selected by this flag. -/
inductive CalibrationMode where
  | NEUTRAL
  | SMILE
deriving DecidableEq, Repr

/-- The part of an HTMLVideoElement the detector loop reads: the current
playback time. -/
structure Video where
  currentTime : ℚ
deriving DecidableEq, Repr

/-- One named blendshape category of a detection result, with its score.
Scores are finite detector outputs, idealized as exact rationals. -/
structure Category where
  categoryName : String
  score : ℚ
deriving DecidableEq, Repr

/-- One entry of `results.faceBlendshapes`: the classified categories of a
detected face. -/
structure FaceBlendshape where
  categories : List Category
deriving DecidableEq, Repr

/-- The `DuringCalibrationBlendValues` type of the source: per-category
lists of collected calibration samples. -/
structure DuringCalibrationBlendValues where
  mouthPressLeft : List ℚ
  mouthPressRight : List ℚ
  mouthSmileLeft : List ℚ
  mouthSmileRight : List ℚ
deriving DecidableEq, Repr

/-- The `initialDuringCalibrationBlendValues` constant of the source:
every category has an empty sample list. -/
def initialDuringCalibrationBlendValues : DuringCalibrationBlendValues :=
  { mouthPressLeft := [], mouthPressRight := [], mouthSmileLeft := [], mouthSmileRight := [] }

/-- The loop body of `doCalibration` over one category of
`faceBlendshapes[0].categories`: if `calibrationBlendValues` has a
property named `blendName`, push `blendScore` onto its list, otherwise
leave the buffers unchanged. -/
def pushBlendValue (vals : DuringCalibrationBlendValues) (blendName : String) (blendScore : ℚ) :
    DuringCalibrationBlendValues :=
  if blendName = "mouthPressLeft" then
    { vals with mouthPressLeft := vals.mouthPressLeft ++ [blendScore] }
  else if blendName = "mouthPressRight" then
    { vals with mouthPressRight := vals.mouthPressRight ++ [blendScore] }
  else if blendName = "mouthSmileLeft" then
    { vals with mouthSmileLeft := vals.mouthSmileLeft ++ [blendScore] }
  else if blendName = "mouthSmileRight" then
    { vals with mouthSmileRight := vals.mouthSmileRight ++ [blendScore] }
  else vals

/-- The state read and written by one invocation of the calibration
sampling loop: the module-level `lastVideoTime`, the module-level sample
buffers, the `calibrationFrames` counter, a counter of how many times
`detectForVideo` has been invoked, and whether this invocation requested
another animation frame. -/
structure CalibState where
  lastVideoTime : ℚ
  calibrationBlendValues : DuringCalibrationBlendValues
  calibrationFrames : ℕ
  detectorCalls : ℕ
  scheduledNext : Bool
deriving DecidableEq, Repr

/-- One invocation of `doCalibration`: return early when the landmarker or
the video is missing; run `detectForVideo` only when `video.currentTime`
differs from `lastVideoTime` (updating `lastVideoTime` first); return early
when no detection ran or no face was found; otherwise push every known
category score of the first face into the sample buffers, bump the frame
counter, and request the next animation frame exactly when
`calibrationStatus` is DOING. `faceBlendshapes` stands for what
`detectForVideo` would return on this invocation. -/
def doCalibration (landmarkerReady : Bool) (video : Option Video)
    (faceBlendshapes : List FaceBlendshape) (calibrationStatus : CalibrationStatus)
    (s : CalibState) : CalibState :=
  match landmarkerReady, video with
  | false, _ => { s with scheduledNext := false }
  | true, none => { s with scheduledNext := false }
  | true, some video =>
    if s.lastVideoTime ≠ video.currentTime then
      let s1 := { s with lastVideoTime := video.currentTime, detectorCalls := s.detectorCalls + 1 }
      match faceBlendshapes with
      | [] => { s1 with scheduledNext := false }
      | face0 :: _ =>
        let s2 := { s1 with
          calibrationBlendValues :=
            face0.categories.foldl (fun acc (c : Category) => pushBlendValue acc c.categoryName c.score)
              s1.calibrationBlendValues,
          calibrationFrames := s1.calibrationFrames + 1 }
        if calibrationStatus = CalibrationStatus.DOING then { s2 with scheduledNext := true }
        else { s2 with scheduledNext := false }
    else { s with scheduledNext := false }

/-- The `FaceLandmarkerBlendValues` type of the source: one scalar per
tracked category, as stored calibration profiles and as prediction blend
factors. -/
structure FaceLandmarkerBlendValues where
  mouthPressLeft : JSNum
  mouthPressRight : JSNum
  mouthSmileLeft : JSNum
  mouthSmileRight : JSNum
deriving DecidableEq, Repr

/-- Modelled from the spec: `initialBlendValues` imported from
`@/store/store`, whose source file is not in the repository snapshot; per
the spec a calibration profile maps each category to a scalar, taken here
as a neutral 0 for each tracked category. `storeCalibrations` overwrites
every field of its copy of this record. -/
def initialBlendValues : FaceLandmarkerBlendValues :=
  { mouthPressLeft := .num 0, mouthPressRight := .num 0,
    mouthSmileLeft := .num 0, mouthSmileRight := .num 0 }

/-- The per-category reduction of `storeCalibrations`:
`values.reduce((acc, num) => acc + num, 0) / values.length` with
JavaScript division, so an empty list yields `0 / 0`. -/
def jsAverage (values : List ℚ) : JSNum :=
  JSNum.jsDiv (.num (values.foldl (· + ·) 0)) (.num values.length)

/-- The profile built by `storeCalibrations`: starting from a copy of
`initialBlendValues`, every key of `calibrationBlendValues` is assigned
the `jsAverage` of its sample list. -/
def storeCalibrations (calibrationBlendValues : DuringCalibrationBlendValues) :
    FaceLandmarkerBlendValues :=
  { mouthPressLeft := jsAverage calibrationBlendValues.mouthPressLeft,
    mouthPressRight := jsAverage calibrationBlendValues.mouthPressRight,
    mouthSmileLeft := jsAverage calibrationBlendValues.mouthSmileLeft,
    mouthSmileRight := jsAverage calibrationBlendValues.mouthSmileRight }

/-- The two profile slots of the global calibration store. -/
structure CalibrationStore where
  blendValues : FaceLandmarkerBlendValues
  smileBlendValues : FaceLandmarkerBlendValues
deriving DecidableEq, Repr

/-- The tail of `storeCalibrations`: the finalized profile is stored in
the neutral slot when the store mode is NEUTRAL and in the smile slot
otherwise. -/
def storeCalibrationsDispatch (calibrationStatusFromStore : CalibrationMode)
    (calibrationBlendValues : DuringCalibrationBlendValues)
    (store : CalibrationStore) : CalibrationStore :=
  if calibrationStatusFromStore = CalibrationMode.NEUTRAL then
    { store with blendValues := storeCalibrations calibrationBlendValues }
  else
    { store with smileBlendValues := storeCalibrations calibrationBlendValues }

/-- The state read and written by `startCalibration`: the sample buffers,
the frame counter, the calibration status, whether a
`setTimeout(stopCalibration, 2000)` timer is outstanding, and whether the
"Wait! video not loaded yet." diagnostic has been logged. -/
structure CalibSession where
  calibrationBlendValues : DuringCalibrationBlendValues
  calibrationFrames : ℕ
  calibrationStatus : CalibrationStatus
  stopTimerScheduled : Bool
  waitDiagnosticLogged : Bool
deriving DecidableEq, Repr

/-- `startCalibration`: when no video is attached, log the wait diagnostic
and return without any other effect; otherwise reset the sample buffers to
fresh empty lists, zero the frame counter, set the status to DOING, and
schedule the 2000 ms stop timer. The source consults no other condition. -/
def startCalibration (video : Option Video) (s : CalibSession) : CalibSession :=
  match video with
  | none => { s with waitDiagnosticLogged := true }
  | some _ =>
    { s with
      calibrationBlendValues :=
        { mouthPressLeft := [], mouthPressRight := [], mouthSmileLeft := [], mouthSmileRight := [] },
      calibrationFrames := 0,
      calibrationStatus := CalibrationStatus.DOING,
      stopTimerScheduled := true }

/-- `stopCalibration`: set the calibration status to DONE and finalize the
collected samples into the store slot selected by the store mode. The
source also detaches the video node afterwards. -/
def stopCalibration (calibrationStatusFromStore : CalibrationMode)
    (s : CalibSession) (store : CalibrationStore) : CalibSession × CalibrationStore :=
  ({ s with calibrationStatus := CalibrationStatus.DONE },
   storeCalibrationsDispatch calibrationStatusFromStore s.calibrationBlendValues store)

/-- `updateBlendValues`: starting from all-zero blend factors, for every
category of the first face whose name is a key of the factors record (the
calibration store records always own all four keys), add
`blendScore / (smileBlendValuesFromCalibration[name] - blendValuesFromCalibration[name])`
to that factor, with JavaScript arithmetic. The source guards neither
against a zero denominator nor against a non-finite quotient. -/
def updateBlendValues (blendValuesFromCalibration smileBlendValuesFromCalibration : FaceLandmarkerBlendValues)
    (faceBlendshapes : List FaceBlendshape) : FaceLandmarkerBlendValues :=
  let blendFactors : FaceLandmarkerBlendValues :=
    { mouthPressLeft := .num 0, mouthPressRight := .num 0,
      mouthSmileLeft := .num 0, mouthSmileRight := .num 0 }
  match faceBlendshapes with
  | [] => blendFactors
  | face0 :: _ =>
    face0.categories.foldl (fun blendFactors (c : Category) =>
      let blendName := c.categoryName
      let blendScore := c.score
      if blendName = "mouthPressLeft" then
        let contribution := JSNum.jsDiv (.num blendScore)
          (JSNum.jsSub smileBlendValuesFromCalibration.mouthPressLeft
            blendValuesFromCalibration.mouthPressLeft)
        { blendFactors with mouthPressLeft := JSNum.jsAdd blendFactors.mouthPressLeft contribution }
      else if blendName = "mouthPressRight" then
        let contribution := JSNum.jsDiv (.num blendScore)
          (JSNum.jsSub smileBlendValuesFromCalibration.mouthPressRight
            blendValuesFromCalibration.mouthPressRight)
        { blendFactors with mouthPressRight := JSNum.jsAdd blendFactors.mouthPressRight contribution }
      else if blendName = "mouthSmileLeft" then
        let contribution := JSNum.jsDiv (.num blendScore)
          (JSNum.jsSub smileBlendValuesFromCalibration.mouthSmileLeft
            blendValuesFromCalibration.mouthSmileLeft)
        { blendFactors with mouthSmileLeft := JSNum.jsAdd blendFactors.mouthSmileLeft contribution }
      else if blendName = "mouthSmileRight" then
        let contribution := JSNum.jsDiv (.num blendScore)
          (JSNum.jsSub smileBlendValuesFromCalibration.mouthSmileRight
            blendValuesFromCalibration.mouthSmileRight)
        { blendFactors with mouthSmileRight := JSNum.jsAdd blendFactors.mouthSmileRight contribution }
      else blendFactors) blendFactors

/-- `calculateMood`: the source computes
`(blendValues[mouthSmileLeft] + blendValues[mouthSmileRight]) / 200` into
`tmpSmileDegree`, then immediately reassigns
`tmpSmileDegree = Math.min(1, Math.max(0, smileDegree))` from the
`smileDegree` state of a previous frame, and that reassigned value is what
is pushed onto `smileDegrees` and stored via `setSmileDegree`. The
shadowed let mirrors the reassignment. -/
def calculateMood (smileDegree : JSNum) (blendValues : FaceLandmarkerBlendValues) : JSNum :=
  let tmpSmileDegree :=
    JSNum.jsDiv (JSNum.jsAdd blendValues.mouthSmileLeft blendValues.mouthSmileRight) (.num 200)
  let tmpSmileDegree := JSNum.jsMin (.num 1) (JSNum.jsMax (.num 0) smileDegree)
  tmpSmileDegree

/-- The smile degree the spec prescribes for the current frame:
`clamp01((mouthSmileLeft + mouthSmileRight) / 200)` of the blend factors
of that same frame. Follows the words of the spec, for comparison with
`calculateMood`. -/
def specSmileDegree (blendValues : FaceLandmarkerBlendValues) : JSNum :=
  JSNum.jsMin (.num 1) (JSNum.jsMax (.num 0)
    (JSNum.jsDiv (JSNum.jsAdd blendValues.mouthSmileLeft blendValues.mouthSmileRight) (.num 200)))

/-- The state read and written by one invocation of the prediction loop:
the module-level `lastVideoTime`, the module-level `smileDegrees`
aggregate, the `smileDegree` state, a counter of `detectForVideo`
invocations, and whether this invocation requested another animation
frame. -/
structure PredictState where
  lastVideoTime : ℚ
  smileDegrees : List JSNum
  smileDegree : JSNum
  detectorCalls : ℕ
  scheduledNext : Bool
deriving DecidableEq, Repr

/-- The state at module load: `lastVideoTime = -1`, no collected samples,
`smileDegree` state 0. -/
def initialPredictState : PredictState :=
  { lastVideoTime := -1, smileDegrees := [], smileDegree := .num 0,
    detectorCalls := 0, scheduledNext := false }

/-- One invocation of `predictWebcam`: return early when the landmarker or
the video is missing; run `detectForVideo` only when `video.currentTime`
differs from `lastVideoTime` (updating `lastVideoTime` first); when a
detection ran and found a face, feed the face through `updateBlendValues`
and `calculateMood`, appending the resulting sample; then request the next
animation frame unconditionally — the source consults no status before
rescheduling. `faceBlendshapes` stands for what `detectForVideo` would
return on this invocation. -/
def predictWebcam (landmarkerReady : Bool) (video : Option Video)
    (faceBlendshapes : List FaceBlendshape)
    (blendValuesFromCalibration smileBlendValuesFromCalibration : FaceLandmarkerBlendValues)
    (s : PredictState) : PredictState :=
  match landmarkerReady, video with
  | false, _ => { s with scheduledNext := false }
  | true, none => { s with scheduledNext := false }
  | true, some video =>
    let step :=
      if s.lastVideoTime ≠ video.currentTime then
        ({ s with lastVideoTime := video.currentTime, detectorCalls := s.detectorCalls + 1 },
         some faceBlendshapes)
      else (s, none)
    match step.2 with
    | some (face0 :: rest) =>
      let tmpSmileDegree := calculateMood step.1.smileDegree
        (updateBlendValues blendValuesFromCalibration smileBlendValuesFromCalibration
          (face0 :: rest))
      { step.1 with
        smileDegrees := step.1.smileDegrees ++ [tmpSmileDegree],
        smileDegree := tmpSmileDegree,
        scheduledNext := true }
    | _ => { step.1 with scheduledNext := true }

/-- Iterated invocations of `predictWebcam` with fixed calibration
profiles: each list entry supplies the landmarker readiness, the attached
video, and the detection result of one scheduler tick. -/
def runPredictWebcam (blendValuesFromCalibration smileBlendValuesFromCalibration : FaceLandmarkerBlendValues) :
    PredictState → List (Bool × Option Video × List FaceBlendshape) → PredictState
  | s, [] => s
  | s, (landmarkerReady, video, faceBlendshapes) :: rest =>
    runPredictWebcam blendValuesFromCalibration smileBlendValuesFromCalibration
      (predictWebcam landmarkerReady video faceBlendshapes
        blendValuesFromCalibration smileBlendValuesFromCalibration s) rest

/-- The state read and written by `startPrediction` and `stopPrediction`:
the `smileDegrees` aggregate and the two status fields. -/
structure PredictSession where
  smileDegrees : List JSNum
  calibrationStatus : CalibrationStatus
  predictionStatus : CalibrationStatus
deriving DecidableEq, Repr

/-- `startPrediction`: set the prediction status to DOING and clear the
`smileDegrees` aggregate. -/
def startPrediction (s : PredictSession) : PredictSession :=
  { s with predictionStatus := CalibrationStatus.DOING, smileDegrees := [] }

/-- `stopPrediction`: return early (undefined, modelled as `none`) when
the landmarker or the video is missing; otherwise compute
`smileDegrees.reduce((acc, num) => acc + num, 0) / smileDegrees.length`
with JavaScript arithmetic, set the CALIBRATION status to DONE — the
source touches `setCalibrationStatus`, not `setPredictionStatus` — and
return the computed value. -/
def stopPrediction (landmarkerReady : Bool) (video : Option Video)
    (s : PredictSession) : Option JSNum × PredictSession :=
  match landmarkerReady, video with
  | false, _ => (none, s)
  | true, none => (none, s)
  | true, some _ =>
    let predictedSmileDegree :=
      JSNum.jsDiv (s.smileDegrees.foldl JSNum.jsAdd (.num 0)) (.num s.smileDegrees.length)
    (some predictedSmileDegree, { s with calibrationStatus := CalibrationStatus.DONE })

/-- The scores a frame carries for the named category: the scores of the
matching categories of the first face, in order. -/
def smileScores (name : String) (faceBlendshapes : List FaceBlendshape) : List ℚ :=
  match faceBlendshapes with
  | [] => []
  | face0 :: _ => (face0.categories.filter (fun c => c.categoryName = name)).map Category.score

/-- A concrete prediction frame: smile scores 1/2 and 2/5, press scores
1/5 and 0. -/
def pressFrameA : List FaceBlendshape :=
  [{ categories := [
      { categoryName := "mouthSmileLeft", score := 1/2 },
      { categoryName := "mouthSmileRight", score := 2/5 },
      { categoryName := "mouthPressLeft", score := 1/5 },
      { categoryName := "mouthPressRight", score := 0 }] }]

/-- A concrete prediction frame agreeing with `pressFrameA` on both smile
categories but with different press scores 9/10 and 7/10. -/
def pressFrameB : List FaceBlendshape :=
  [{ categories := [
      { categoryName := "mouthSmileLeft", score := 1/2 },
      { categoryName := "mouthSmileRight", score := 2/5 },
      { categoryName := "mouthPressLeft", score := 9/10 },
      { categoryName := "mouthPressRight", score := 7/10 }] }]

/-- The invariant maintained by the prediction loop: the `smileDegree`
state is a finite number, and every sample collected so far lies in the
unit interval. -/
def predictInvariant (s : PredictState) : Prop :=
  (∃ q, s.smileDegree = JSNum.num q) ∧ s.smileDegrees.all JSNum.inUnit = true

theorem calculateMood_eq (smileDegree : JSNum) (blendValues : FaceLandmarkerBlendValues) :
    calculateMood smileDegree blendValues
      = JSNum.jsMin (.num 1) (JSNum.jsMax (.num 0) smileDegree) := rfl

theorem clamp_num (q : ℚ) :
    JSNum.jsMin (.num 1) (JSNum.jsMax (.num 0) (.num q)) = JSNum.num (min 1 (max 0 q)) := rfl

theorem clamped_inUnit (q : ℚ) : JSNum.inUnit (JSNum.num (min 1 (max 0 q))) = true := by
  simp [JSNum.inUnit]

theorem doCalibration_sets_lastVideoTime (v : Video) (d : List FaceBlendshape)
    (status : CalibrationStatus) (s : CalibState) :
    (doCalibration true (some v) d status s).lastVideoTime = v.currentTime := by
  unfold doCalibration
  by_cases h : s.lastVideoTime = v.currentTime
  · simp [h]
  · cases d with
    | nil => simp [h]
    | cons f rest =>
      by_cases hs : status = CalibrationStatus.DOING <;> simp [h, hs]

theorem doCalibration_same_time_skips (v : Video) (d : List FaceBlendshape)
    (status : CalibrationStatus) (s : CalibState)
    (h : s.lastVideoTime = v.currentTime) :
    doCalibration true (some v) d status s = { s with scheduledNext := false } := by
  unfold doCalibration
  simp [h]

theorem predictWebcam_sets_lastVideoTime (v : Video) (d : List FaceBlendshape)
    (bv sv : FaceLandmarkerBlendValues) (s : PredictState) :
    (predictWebcam true (some v) d bv sv s).lastVideoTime = v.currentTime := by
  unfold predictWebcam
  by_cases h : s.lastVideoTime = v.currentTime
  · simp [h]
  · cases d <;> simp [h]

theorem predictWebcam_same_time_skips (v : Video) (d : List FaceBlendshape)
    (bv sv : FaceLandmarkerBlendValues) (s : PredictState)
    (h : s.lastVideoTime = v.currentTime) :
    predictWebcam true (some v) d bv sv s = { s with scheduledNext := true } := by
  unfold predictWebcam
  simp [h]

theorem predictWebcam_push (v : Video) (f : FaceBlendshape) (rest : List FaceBlendshape)
    (bv sv : FaceLandmarkerBlendValues) (s : PredictState)
    (h : s.lastVideoTime ≠ v.currentTime) :
    predictWebcam true (some v) (f :: rest) bv sv s =
      { lastVideoTime := v.currentTime,
        smileDegrees := s.smileDegrees ++ [JSNum.jsMin (.num 1) (JSNum.jsMax (.num 0) s.smileDegree)],
        smileDegree := JSNum.jsMin (.num 1) (JSNum.jsMax (.num 0) s.smileDegree),
        detectorCalls := s.detectorCalls + 1,
        scheduledNext := true } := by
  unfold predictWebcam
  simp [h, calculateMood_eq]

theorem predictWebcam_noface (v : Video) (bv sv : FaceLandmarkerBlendValues) (s : PredictState)
    (h : s.lastVideoTime ≠ v.currentTime) :
    predictWebcam true (some v) [] bv sv s =
      { s with lastVideoTime := v.currentTime, detectorCalls := s.detectorCalls + 1,
               scheduledNext := true } := by
  unfold predictWebcam
  simp [h]

theorem predictWebcam_preserves_invariant (landmarkerReady : Bool) (video : Option Video)
    (faces : List FaceBlendshape) (bv sv : FaceLandmarkerBlendValues) (s : PredictState)
    (h : predictInvariant s) :
    predictInvariant (predictWebcam landmarkerReady video faces bv sv s) := by
  obtain ⟨⟨q, hq⟩, hall⟩ := h
  match landmarkerReady, video with
  | false, _ => exact ⟨⟨q, hq⟩, hall⟩
  | true, none => exact ⟨⟨q, hq⟩, hall⟩
  | true, some v =>
    by_cases ht : s.lastVideoTime = v.currentTime
    · rw [predictWebcam_same_time_skips v faces bv sv s ht]
      exact ⟨⟨q, hq⟩, hall⟩
    · cases faces with
      | nil =>
        rw [predictWebcam_noface v bv sv s ht]
        exact ⟨⟨q, hq⟩, hall⟩
      | cons f rest =>
        rw [predictWebcam_push v f rest bv sv s ht]
        refine ⟨⟨min 1 (max 0 q), by simp [hq, clamp_num]⟩, ?_⟩
        simp [List.all_append, hall, hq, clamp_num, clamped_inUnit]

theorem run_preserves_invariant (bv sv : FaceLandmarkerBlendValues)
    (inputs : List (Bool × Option Video × List FaceBlendshape)) (s : PredictState)
    (h : predictInvariant s) :
    predictInvariant (runPredictWebcam bv sv s inputs) := by
  induction inputs generalizing s with
  | nil => exact h
  | cons i rest ih =>
    exact ih _ (predictWebcam_preserves_invariant i.1 i.2.1 i.2.2 bv sv s h)

/-- C1: falsified by the code. When the smile profile and the baseline
profile agree on a category (here mouthSmileLeft, both 3/10), a frame
carrying that category makes `updateBlendValues` evaluate
`blendScore / (smile - baseline)` with denominator 0: the category is not
skipped, and its contribution to the blend-factor set is Infinity. -/
theorem updateBlendValues_zero_denominator_infinity :
    (updateBlendValues
      { mouthPressLeft := .num 0, mouthPressRight := .num 0,
        mouthSmileLeft := .num (3/10), mouthSmileRight := .num 0 }
      { mouthPressLeft := .num 0, mouthPressRight := .num 0,
        mouthSmileLeft := .num (3/10), mouthSmileRight := .num 0 }
      [{ categories := [{ categoryName := "mouthSmileLeft", score := 1/2 }] }]).mouthSmileLeft
      = JSNum.inf := by
  norm_num [updateBlendValues, JSNum.jsAdd, JSNum.jsSub, JSNum.jsNeg, JSNum.jsDiv]
  decide

/-- C2: falsified by the code. On a frame whose blend factors sum to 200
(so the spec-prescribed smile degree clamp01((100 + 100) / 200) is 1),
`calculateMood` called with a previous `smileDegree` state of 0 appends 0:
the appended sample is the clamp of the stale previous value, not the
value computed from the current frame. -/
theorem calculateMood_pushes_stale_value :
    calculateMood (JSNum.num 0)
      { mouthPressLeft := .num 0, mouthPressRight := .num 0,
        mouthSmileLeft := .num 100, mouthSmileRight := .num 100 }
      = JSNum.num 0
    ∧ specSmileDegree
      { mouthPressLeft := .num 0, mouthPressRight := .num 0,
        mouthSmileLeft := .num 100, mouthSmileRight := .num 100 }
      = JSNum.num 1 := by
  constructor
  · norm_num [calculateMood, JSNum.jsMin, JSNum.jsMax]
  · norm_num [specSmileDegree, JSNum.jsAdd, JSNum.jsDiv, JSNum.jsMin, JSNum.jsMax]

/-- C3: falsified by the code on the empty case. Finalizing with empty
sample lists computes `0 / 0` per category, so every profile entry is NaN
rather than a defined zero; on a non-empty list (here [1/5, 3/5]) the
entry is the arithmetic mean 2/5 as claimed. -/
theorem storeCalibrations_empty_nan_nonempty_mean :
    storeCalibrations initialDuringCalibrationBlendValues
      = { mouthPressLeft := JSNum.nan, mouthPressRight := JSNum.nan,
          mouthSmileLeft := JSNum.nan, mouthSmileRight := JSNum.nan }
    ∧ (storeCalibrations
        { mouthPressLeft := [], mouthPressRight := [],
          mouthSmileLeft := [1/5, 3/5], mouthSmileRight := [] }).mouthSmileLeft
      = JSNum.num (2/5) := by
  constructor
  · norm_num [storeCalibrations, initialDuringCalibrationBlendValues, jsAverage, JSNum.jsDiv]
  · norm_num [storeCalibrations, jsAverage, JSNum.jsDiv]

/-- C4: falsified by the code. With the landmarker and the video present
and no samples collected, `stopPrediction` returns `0 / 0` = NaN rather
than 0, sets the CALIBRATION status to DONE, and leaves the prediction
status untouched (here it stays DOING). -/
theorem stopPrediction_empty_nan_wrong_status :
    stopPrediction true (some { currentTime := 0 })
      { smileDegrees := [], calibrationStatus := CalibrationStatus.READY,
        predictionStatus := CalibrationStatus.DOING }
      = (some JSNum.nan,
         { smileDegrees := [], calibrationStatus := CalibrationStatus.DONE,
           predictionStatus := CalibrationStatus.DOING }) := by
  norm_num [stopPrediction, JSNum.jsDiv]

/-- C5: falsified by the code on the prediction loop. Whenever the
landmarker and the video are present, `predictWebcam` requests the next
animation frame unconditionally — it never consults the prediction
status, so the loop keeps rescheduling after the status leaves DOING —
whereas `doCalibration` with status DONE does not reschedule. -/
theorem predictWebcam_reschedules_unconditionally (v : Video)
    (faces : List FaceBlendshape) (bv sv : FaceLandmarkerBlendValues)
    (s : PredictState) (cats : List FaceBlendshape) (c : CalibState) :
    (predictWebcam true (some v) faces bv sv s).scheduledNext = true
    ∧ (doCalibration true (some v) cats CalibrationStatus.DONE c).scheduledNext = false := by
  constructor
  · unfold predictWebcam
    by_cases h : s.lastVideoTime = v.currentTime
    · simp [h]
    · cases faces <;> simp [h]
  · unfold doCalibration
    by_cases h : c.lastVideoTime = v.currentTime
    · simp [h]
    · cases cats <;> simp [h]

/-- C6 counterexample: with a video attached and the status already DOING,
`startCalibration` is not a no-op — it empties the non-empty sample
buffers, resets the frame counter from 1 to 0, and schedules a new stop
timer where none was outstanding. -/
theorem startCalibration_while_doing_not_noop :
    startCalibration (some { currentTime := 1 })
      { calibrationBlendValues :=
          { mouthPressLeft := [], mouthPressRight := [], mouthSmileLeft := [1/2], mouthSmileRight := [] },
        calibrationFrames := 1,
        calibrationStatus := CalibrationStatus.DOING,
        stopTimerScheduled := false,
        waitDiagnosticLogged := false }
      = { calibrationBlendValues := initialDuringCalibrationBlendValues,
          calibrationFrames := 0,
          calibrationStatus := CalibrationStatus.DOING,
          stopTimerScheduled := true,
          waitDiagnosticLogged := false }
    ∧ ({ mouthPressLeft := [], mouthPressRight := [],
         mouthSmileLeft := [1/2], mouthSmileRight := [] } : DuringCalibrationBlendValues)
      ≠ initialDuringCalibrationBlendValues := by
  constructor
  · rfl
  · simp [initialDuringCalibrationBlendValues]

/-- C6 amended: whenever a video is attached, `startCalibration`
unconditionally restarts calibration — it resets the sample buffers and
the frame counter, enters DOING from any status (including DOING itself),
and schedules a fresh 2000 ms stop timer; only a missing video makes the
call a no-op. -/
theorem startCalibration_with_video_restarts (v : Video) (s : CalibSession) :
    startCalibration (some v) s =
      { s with calibrationBlendValues := initialDuringCalibrationBlendValues,
               calibrationFrames := 0,
               calibrationStatus := CalibrationStatus.DOING,
               stopTimerScheduled := true } := rfl

/-- C7: confirmed. After any invocation of either loop body with a video
attached, `lastVideoTime` equals that frame time, so a second consecutive
invocation seeing the same `currentTime` changes nothing except its
rescheduling outcome: it invokes the detector zero further times and
appends no calibration or prediction samples. -/
theorem same_frame_second_call_skips (v : Video) (status : CalibrationStatus)
    (d1 d2 p1 p2 : List FaceBlendshape) (bv sv : FaceLandmarkerBlendValues)
    (s : CalibState) (ps : PredictState) :
    doCalibration true (some v) d2 status (doCalibration true (some v) d1 status s)
      = { doCalibration true (some v) d1 status s with scheduledNext := false }
    ∧ predictWebcam true (some v) p2 bv sv (predictWebcam true (some v) p1 bv sv ps)
      = { predictWebcam true (some v) p1 bv sv ps with scheduledNext := true } :=
  ⟨doCalibration_same_time_skips v d2 status _ (doCalibration_sets_lastVideoTime v d1 status s),
   predictWebcam_same_time_skips v p2 bv sv _ (predictWebcam_sets_lastVideoTime v p1 bv sv ps)⟩

/-- C8: confirmed. Starting from the initial module state, after any
sequence of prediction-loop invocations — with arbitrary calibration
profiles and arbitrary frames, including blendshape scores below 0 or
above 1 — every sample in the `smileDegrees` aggregate is a finite value
in the closed interval [0, 1]. -/
theorem prediction_samples_in_unit_interval (bv sv : FaceLandmarkerBlendValues)
    (inputs : List (Bool × Option Video × List FaceBlendshape)) :
    (runPredictWebcam bv sv initialPredictState inputs).smileDegrees.all JSNum.inUnit = true :=
  (run_preserves_invariant bv sv inputs initialPredictState ⟨⟨0, rfl⟩, rfl⟩).2

/-- C9: confirmed. Calling `startCalibration` with no video attached only
logs the wait diagnostic: the status, the sample buffers, the frame
counter and the stop timer are all left exactly as they were, and the
total function never throws. -/
theorem startCalibration_without_video_noop (s : CalibSession) :
    startCalibration none s = { s with waitDiagnosticLogged := true } := rfl

/-- C10: confirmed. With the calibration profiles and the previous
`smileDegree` state fixed, two frames that agree on their mouthSmileLeft
and mouthSmileRight scores yield the same appended smile-degree sample,
whatever their mouthPressLeft and mouthPressRight scores are. -/
theorem smile_sample_ignores_press_scores
    (bv sv : FaceLandmarkerBlendValues) (smileDegree : JSNum)
    (f1 f2 : List FaceBlendshape)
    (hL : smileScores "mouthSmileLeft" f1 = smileScores "mouthSmileLeft" f2)
    (hR : smileScores "mouthSmileRight" f1 = smileScores "mouthSmileRight" f2) :
    calculateMood smileDegree (updateBlendValues bv sv f1)
      = calculateMood smileDegree (updateBlendValues bv sv f2) := rfl

/-- C10 witness: `pressFrameA` and `pressFrameB` agree on both smile
categories while their press scores differ, and the appended sample is
the same for both. -/
theorem smile_sample_ignores_press_scores_witness :
    smileScores "mouthSmileLeft" pressFrameA = smileScores "mouthSmileLeft" pressFrameB
    ∧ smileScores "mouthSmileRight" pressFrameA = smileScores "mouthSmileRight" pressFrameB
    ∧ calculateMood (JSNum.num 0) (updateBlendValues initialBlendValues initialBlendValues pressFrameA)
      = calculateMood (JSNum.num 0) (updateBlendValues initialBlendValues initialBlendValues pressFrameB) :=
  ⟨rfl, rfl,
   smile_sample_ignores_press_scores initialBlendValues initialBlendValues (JSNum.num 0)
     pressFrameA pressFrameB rfl rfl⟩
